import Mathlib

/-!
Shallow embedding of the DigitalOcean DNS provider of
timoreimann/external-dns-management:

* `src/pkg/controller/provider/digitalocean/client.go` — the remote
  listing/mutation client (`DNSClient`): paginated `ListDomains` /
  `ListRecords`, `CreateRecord` / `UpdateRecord` / `DeleteRecord`,
  `NewRecord`, `createRecordRequest`.
* `src/unnamed/part_000` — the handler (`NewHandler`, `getZones`,
  `getZoneState`, `GetZoneState`, `ExecuteRequests`).

External effects (metric increments via `provider.Metrics.AddRequests`,
rate-limiter token acquisition via `flowcontrol.RateLimiter.Accept`, and
remote HTTP calls via the `godo` service) are modelled by an explicit
`Effects` log threaded through each operation.  The remote service itself
is a parameter (`RemoteService`): a pure function from request data to a
result, standing for the injected `godo.DomainsService`.

Go `int`/`int64` values are modelled as `Int` (the build targets 64-bit,
where `int(ttl)` on an `int64` is the identity); Go errors are modelled as
`Except String`.
-/

namespace DO

/-- `godo.Domain`, restricted to the field the code reads (`Name`). -/
structure Domain where
  name : String
deriving DecidableEq, Repr

/-- `godo.DomainRecord`, restricted to the fields the code reads:
`ID`, `Type`, `Name`, `Data`, `TTL`. -/
structure DomainRecord where
  id : Int
  rtype : String
  name : String
  data : String
  ttl : Int
deriving DecidableEq, Repr

/-- `godo.Links`, as consumed by the pagination loops: the last-page test
`IsLastPage()` and the fallible `CurrentPage()`. -/
structure Links where
  isLastPage : Bool
  currentPage : Except String Nat
deriving Repr

/-- `godo.Response`, restricted to the `Links` field (which may be nil). -/
structure Response where
  links : Option Links
deriving Repr

/-- `godo.DomainRecordEditRequest`, restricted to the fields the code
fills: `Type`, `Name`, `Data`, `TTL`. -/
structure DomainRecordEditRequest where
  rtype : String
  name : String
  data : String
  ttl : Int
deriving DecidableEq, Repr

/-- The concrete `digitalocean.Record` behind the `raw.Record` interface
(its defining file is not under `src/`; the fields are those the client
code reads through `GetId`/`GetType`/`GetDNSName`/`GetValue`/`GetTTL`
plus the `domain` field accessed by the downcast `r.(*Record).domain`). -/
structure Record where
  id : String
  rtype : String
  dnsName : String
  value : String
  ttl : Int
  domain : String
deriving DecidableEq, Repr

/-- The metric keys `provider.M_*` used by the client. -/
inductive MetricType where
  | M_LISTZONES
  | M_LISTRECORDS
  | M_CREATERECORDS
  | M_UPDATERECORDS
  | M_DELETERECORDS
deriving DecidableEq, Repr

/-- One remote HTTP call issued through the `godo` service. -/
inductive RemoteCall where
  | listPage (page : Nat)
  | recordsPage (domain : String) (page : Nat)
  | create (domain : String) (req : DomainRecordEditRequest)
  | edit (domain : String) (id : Int) (req : DomainRecordEditRequest)
  | delete (domain : String) (id : Int)
deriving DecidableEq, Repr

/-- The log of external effects of a client operation:
`metrics` records each `AddRequests(kind, 1)` call, `tokens` counts
`rateLimiter.Accept()` calls, `remoteCalls` records each call issued to
the remote `godo` service. -/
structure Effects where
  metrics : List MetricType := []
  tokens : Nat := 0
  remoteCalls : List RemoteCall := []
deriving DecidableEq, Repr

/-- The behaviour of the injected `godo.DomainsService`: each method is a
pure function from request data to a result. -/
structure RemoteService where
  listPage : Nat → Except String (List Domain × Response)
  recordsPage : String → Nat → Except String (List DomainRecord × Response)
  createRecord : String → DomainRecordEditRequest → Except String Unit
  editRecord : String → Int → DomainRecordEditRequest → Except String Unit
  deleteRecord : String → Int → Except String Unit

/-- Go's `%q` verb on a string that needs no escaping: surround with
double quotes. -/
def goQuote (s : String) : String := "\"" ++ s ++ "\""

/-- Accumulate a run of decimal digits (`strconv.ParseUint` without the
range check); fails on the first non-digit character. -/
def parseDigits : List Char → Nat → Option Nat
  | [], acc => some acc
  | c :: cs, acc =>
      if c.isDigit then parseDigits cs (acc * 10 + (c.toNat - 48)) else none

/-- Go's `strconv.Atoi` on a 64-bit platform: optional sign, a nonempty
digit run, and the `int64` range check of `strconv.ParseInt`. -/
def Atoi (s : String) : Except String Int :=
  let syntaxErr : Except String Int :=
    .error ("strconv.Atoi: parsing " ++ goQuote s ++ ": invalid syntax")
  let rangeErr : Except String Int :=
    .error ("strconv.Atoi: parsing " ++ goQuote s ++ ": value out of range")
  let (neg, ds) : Bool × List Char :=
    match s.data with
    | '-' :: rest => (true, rest)
    | '+' :: rest => (false, rest)
    | cs => (false, cs)
  match ds with
  | [] => syntaxErr
  | _ :: _ =>
    match parseDigits ds 0 with
    | none => syntaxErr
    | some n =>
      if neg then
        if n ≤ 2 ^ 63 then .ok (-(n : Int)) else rangeErr
      else
        if n ≤ 2 ^ 63 - 1 then .ok (n : Int) else rangeErr

/-- `createRecordRequest` (client.go:157-170): build the edit request from
the record's type, DNS name, value and TTL, then raise the TTL to 30 when
it is below 30. -/
def createRecordRequest (r : Record) : DomainRecordEditRequest :=
  let req : DomainRecordEditRequest :=
    { rtype := r.rtype, name := r.dnsName, data := r.value, ttl := r.ttl }
  if req.ttl < 30 then { req with ttl := 30 } else req

/-- The body of the pagination loops of `ListDomains` (client.go:53-69)
and `ListRecords` (client.go:83-99), which are textually identical up to
the fetched element type; embedded once, parametrised by the page-fetch
function and the `RemoteCall` logged per page.  The Go loop is unbounded;
`fuel` bounds the recursion and is irrelevant whenever the remote service
marks a last page within `fuel` steps. -/
def pagedLoop (fetch : Nat → Except String (List α × Response))
    (log : Nat → RemoteCall) :
    Nat → Nat → List α → Effects → Effects × Except String (List α)
  | 0, _, _, eff => (eff, .error "pagination did not terminate")
  | fuel + 1, page, acc, eff =>
    let eff := { eff with remoteCalls := eff.remoteCalls ++ [log page] }
    match fetch page with
    | .error e => (eff, .error e)
    | .ok (items, resp) =>
      let acc := acc ++ items
      match resp.links with
      | none => (eff, .ok acc)
      | some links =>
        if links.isLastPage then (eff, .ok acc)
        else
          match links.currentPage with
          | .error e => (eff, .error e)
          | .ok p => pagedLoop fetch log fuel (p + 1) acc eff

/-- `ListDomains` (client.go:44-72): one metric increment and one
rate-limiter token, then the pagination loop starting at page 1 with an
empty accumulator.  A page error is returned as-is with no partial
result (`return nil, err`). -/
def ListDomains (svc : RemoteService) (fuel : Nat) (eff : Effects) :
    Effects × Except String (List Domain) :=
  let eff := { eff with
    metrics := eff.metrics ++ [MetricType.M_LISTZONES],
    tokens := eff.tokens + 1 }
  pagedLoop svc.listPage RemoteCall.listPage fuel 1 [] eff

/-- `ListRecords` (client.go:74-102): identical contract, scoped to one
domain. -/
def ListRecords (svc : RemoteService) (domain : String) (fuel : Nat)
    (eff : Effects) : Effects × Except String (List DomainRecord) :=
  let eff := { eff with
    metrics := eff.metrics ++ [MetricType.M_LISTRECORDS],
    tokens := eff.tokens + 1 }
  pagedLoop (svc.recordsPage domain) (RemoteCall.recordsPage domain)
    fuel 1 [] eff

/-- The error wrapper of `CreateRecord` (client.go:111). -/
def createErrMsg (r : Record) (cause : String) : String :=
  "failed to create record of type " ++ goQuote r.rtype ++
    " for DNS name " ++ goQuote r.dnsName ++ " and value " ++
    goQuote r.value ++ ": " ++ cause

/-- The error wrapper of `UpdateRecord` (client.go:128). -/
def updateErrMsg (r : Record) (cause : String) : String :=
  "failed to update record of type " ++ goQuote r.rtype ++
    " for DNS name " ++ goQuote r.dnsName ++ " and value " ++
    goQuote r.value ++ ": " ++ cause

/-- The error wrapper of `DeleteRecord` (client.go:143). -/
def deleteErrMsg (r : Record) (cause : String) : String :=
  "failed to delete record of type " ++ goQuote r.rtype ++
    " for DNS name " ++ goQuote r.dnsName ++ " and value " ++
    goQuote r.value ++ ": " ++ cause

/-- The validation-error wrapper of `UpdateRecord` (client.go:121). -/
def updateIdErrMsg (id : String) (cause : String) : String :=
  "failed to convert record ID " ++ goQuote id ++ " to integer: " ++ cause

/-- The validation-error wrapper of `DeleteRecord` (client.go:136). -/
def deleteIdErrMsg (id : String) (cause : String) : String :=
  "failed to convert ID " ++ goQuote id ++ " to integer: " ++ cause

/-- `CreateRecord` (client.go:104-114): build the request, record metric
and token, issue the remote create; a remote error is wrapped with the
record's type, DNS name and value. -/
def CreateRecord (svc : RemoteService) (r : Record) (eff : Effects) :
    Effects × Except String Unit :=
  let req := createRecordRequest r
  let eff := { eff with
    metrics := eff.metrics ++ [MetricType.M_CREATERECORDS],
    tokens := eff.tokens + 1 }
  let eff := { eff with
    remoteCalls := eff.remoteCalls ++ [RemoteCall.create r.domain req] }
  match svc.createRecord r.domain req with
  | .error e => (eff, .error (createErrMsg r e))
  | .ok _ => (eff, .ok ())

/-- `UpdateRecord` (client.go:116-131): build the request, parse the
record ID (failure returns the validation error before any effect),
record metric and token, issue the remote edit; a remote error is wrapped
with the record's type, DNS name and value. -/
def UpdateRecord (svc : RemoteService) (r : Record) (eff : Effects) :
    Effects × Except String Unit :=
  let req := createRecordRequest r
  match Atoi r.id with
  | .error e => (eff, .error (updateIdErrMsg r.id e))
  | .ok id =>
    let eff := { eff with
      metrics := eff.metrics ++ [MetricType.M_UPDATERECORDS],
      tokens := eff.tokens + 1 }
    let eff := { eff with
      remoteCalls := eff.remoteCalls ++ [RemoteCall.edit r.domain id req] }
    match svc.editRecord r.domain id req with
    | .error e => (eff, .error (updateErrMsg r e))
    | .ok _ => (eff, .ok ())

/-- `DeleteRecord` (client.go:133-146): parse the record ID (failure
returns the validation error before any effect), record metric and token,
issue the remote delete; a remote error is wrapped with the record's
type, DNS name and value. -/
def DeleteRecord (svc : RemoteService) (r : Record) (eff : Effects) :
    Effects × Except String Unit :=
  match Atoi r.id with
  | .error e => (eff, .error (deleteIdErrMsg r.id e))
  | .ok id =>
    let eff := { eff with
      metrics := eff.metrics ++ [MetricType.M_DELETERECORDS],
      tokens := eff.tokens + 1 }
    let eff := { eff with
      remoteCalls := eff.remoteCalls ++ [RemoteCall.delete r.domain id] }
    match svc.deleteRecord r.domain id with
    | .error e => (eff, .error (deleteErrMsg r e))
    | .ok _ => (eff, .ok ())

/-- Modelled from the spec: `toRecord` (the provider's record.go is not
under `src/`).  Per §4.2 the normalizer is a pure mapping from the
provider record to the canonical `Record`, attaching the owning zone's
key; every field, the TTL included, is carried over unchanged. -/
def toRecord (dr : DomainRecord) (zoneKey : String) : Record :=
  { id := toString dr.id, rtype := dr.rtype, dnsName := dr.name,
    value := dr.data, ttl := dr.ttl, domain := zoneKey }

/-- `provider.DNSHostedZone` as produced by `NewDNSHostedZone(ptype, id,
domain, key, forwarded, isPrivate)` (its definition is outside `src/`;
only the constructor-argument record is needed here). -/
structure DNSHostedZone where
  providerType : String
  id : String
  domain : String
  key : String
  forwarded : List String
  isPrivate : Bool
deriving DecidableEq, Repr

/-- `NewRecord` (client.go:148-155): wrap the field values in a
`godo.DomainRecord` (TTL passed through `int(ttl)`, the identity on a
64-bit build) and normalize it with the zone's key. -/
def NewRecord (fqdn rtype value : String) (zone : DNSHostedZone)
    (ttl : Int) : Record :=
  toRecord { id := 0, rtype := rtype, name := fqdn, data := value,
             ttl := ttl } zone.key

/-- `dns.RS_NS` (defined outside `src/`): the NS record-type constant. -/
def RS_NS : String := "NS"

/-- `ProviderTypeDigitalOcean` (defined outside `src/`); its value is
irrelevant to every claim, it is only copied into the zone descriptor. -/
def ProviderTypeDigitalOcean : String := "digitalocean-godo"

/-- The per-domain loop of `getZones` (part_000:76-90).  `forwarded` is
declared before this loop in the source (part_000:75) and is never reset,
so it accumulates across domains; each constructed zone receives the
accumulated list as of its own iteration.  NS records whose name differs
from the domain's name are appended (part_000:82-86). -/
def getZonesLoop (svc : RemoteService) (fuel : Nat) :
    List Domain → List String → List DNSHostedZone → Effects →
    Effects × Except String (List DNSHostedZone)
  | [], _, zones, eff => (eff, .ok zones)
  | dom :: rest, forwarded, zones, eff =>
    match ListRecords svc dom.name fuel eff with
    | (eff, .error e) => (eff, .error e)
    | (eff, .ok records) =>
      let forwarded := forwarded ++
        (records.filter fun rec =>
          rec.rtype == RS_NS && rec.name != dom.name).map DomainRecord.name
      let zone : DNSHostedZone :=
        { providerType := ProviderTypeDigitalOcean, id := dom.name,
          domain := dom.name, key := dom.name, forwarded := forwarded,
          isPrivate := false }
      getZonesLoop svc fuel rest forwarded (zones ++ [zone]) eff

/-- `getZones` (part_000:67-93): list the domains, then for each domain
list its records, collect forwarded NS names, and construct the zone
descriptor. -/
def getZones (svc : RemoteService) (fuel : Nat) (eff : Effects) :
    Effects × Except String (List DNSHostedZone) :=
  match ListDomains svc fuel eff with
  | (eff, .error e) => (eff, .error e)
  | (eff, .ok domains) => getZonesLoop svc fuel domains [] [] eff

/-- One aggregated record-set of a zone snapshot: key `(name, rtype)`,
with the member records' `(value, TTL)` pairs in encounter order. -/
structure DNSSet where
  name : String
  rtype : String
  entries : List (String × Int)
deriving DecidableEq, Repr

/-- Modelled from the spec: one step of the record-set aggregation of
`raw.CalculateDNSSets` (pkg/dns/provider/raw is not under `src/`).  Per
§4.3, records with equal `(name, type)` are merged into one `DNSSet`,
values in encounter order; a new key opens a new set. -/
def addRecordToSets (sets : List DNSSet) (r : Record) : List DNSSet :=
  match sets with
  | [] => [{ name := r.dnsName, rtype := r.rtype,
             entries := [(r.value, r.ttl)] }]
  | s :: rest =>
    if s.name = r.dnsName ∧ s.rtype = r.rtype then
      { s with entries := s.entries ++ [(r.value, r.ttl)] } :: rest
    else
      s :: addRecordToSets rest r

/-- Modelled from the spec: `raw.CalculateDNSSets` — fold the canonical
records into record-sets (§4.3). -/
def CalculateDNSSets (rs : List Record) : List DNSSet :=
  rs.foldl addRecordToSets []

/-- Modelled from the spec: the `raw` zone state (pkg/dns/provider/raw is
not under `src/`) — an immutable snapshot holding the index of canonical
records added via `AddRecord` and the record-sets computed by
`CalculateDNSSets` (§3, §4.3). -/
structure ZoneState where
  records : List Record
  sets : List DNSSet
deriving DecidableEq, Repr

/-- `getZoneState` (part_000:99-113): list the zone's records, normalize
each with `toRecord` under the zone's domain, add them to a fresh state
and compute the record-sets. -/
def getZoneState (svc : RemoteService) (fuel : Nat) (zone : DNSHostedZone)
    (eff : Effects) : Effects × Except String ZoneState :=
  match ListRecords svc zone.domain fuel eff with
  | (eff, .error e) => (eff, .error e)
  | (eff, .ok records) =>
    let rs := records.map fun dr => toRecord dr zone.domain
    (eff, .ok { records := rs, sets := CalculateDNSSets rs })

/-- The cache-behaviour options of `provider.ZoneCacheConfig`, restricted
to the flag the handler manipulates. -/
structure ZoneCacheConfig where
  zoneStateCacheEnabled : Bool
deriving DecidableEq, Repr

/-- `ZoneCacheConfig.CopyWithDisabledZoneStateCache` as called by
`NewHandler` (part_000:51): the copy has the zone-state cache disabled. -/
def ZoneCacheConfig.CopyWithDisabledZoneStateCache (c : ZoneCacheConfig) :
    ZoneCacheConfig :=
  { c with zoneStateCacheEnabled := false }

/-- Modelled from the spec: the `provider.ZoneCache` entry table
(pkg/dns/provider is not under `src/`) — per-zone-key memo of the last
built `ZoneState` (§4.4), plus the configuration it was built with. -/
structure ZoneCache where
  config : ZoneCacheConfig
  stateEntries : List (String × ZoneState)
deriving DecidableEq, Repr

/-- The cache `NewHandler` (part_000:51) builds: the supplied
configuration with the zone-state cache disabled, and no entries. -/
def NewHandlerZoneCache (c : ZoneCacheConfig) : ZoneCache :=
  { config := c.CopyWithDisabledZoneStateCache, stateEntries := [] }

/-- Modelled from the spec: `provider.ZoneCache.GetZoneState` (§4.4) —
with the zone-state cache enabled it serves the memoised snapshot for the
zone's key and otherwise fetches once and installs the result; with the
cache disabled every call fetches.  The middle component counts the
remote fetches the call triggers. -/
def ZoneCache.GetZoneState (cache : ZoneCache) (zone : DNSHostedZone)
    (fetch : Unit → Except String ZoneState) :
    ZoneCache × Nat × Except String ZoneState :=
  if cache.config.zoneStateCacheEnabled then
    match cache.stateEntries.lookup zone.key with
    | some st => (cache, 0, .ok st)
    | none =>
      match fetch () with
      | .error e => (cache, 1, .error e)
      | .ok st =>
        ({ cache with stateEntries := cache.stateEntries ++ [(zone.key, st)] },
         1, .ok st)
  else
    (cache, 1, fetch ())

/-- `Handler.GetZoneState` (part_000:95-97): delegate to the cache with
the handler's `getZoneState` as the fetch function (the fetch's effect
log is started empty; the middle component counts remote fetches). -/
def HandlerGetZoneState (svc : RemoteService) (fuel : Nat)
    (cache : ZoneCache) (zone : DNSHostedZone) :
    ZoneCache × Nat × Except String ZoneState :=
  cache.GetZoneState zone fun _ => (getZoneState svc fuel zone {}).2

/-- The operation kind of a change request (§3). -/
inductive OpKind where
  | create
  | update
  | delete
deriving DecidableEq, Repr

/-- Modelled from the spec: `provider.ChangeRequest` as consumed by
`raw.ExecuteRequests` (pkg/dns/provider/raw is not under `src/`) — the
target record plus the two markers §4.5 resolves the operation from:
whether the request carries an existing record identifier and whether it
is marked for removal. -/
structure ChangeRequest where
  record : Record
  existing : Bool
  remove : Bool
deriving DecidableEq, Repr

/-- Modelled from the spec: operation-kind resolution of §4.5 — removal
means delete, an existing identifier means update, otherwise create. -/
def ChangeRequest.op (cr : ChangeRequest) : OpKind :=
  if cr.remove then .delete else if cr.existing then .update else .create

/-- Dispatch one change request to the matching client operation. -/
def applyRequest (svc : RemoteService) (cr : ChangeRequest)
    (eff : Effects) : Effects × Except String Unit :=
  match cr.op with
  | .create => CreateRecord svc cr.record eff
  | .update => UpdateRecord svc cr.record eff
  | .delete => DeleteRecord svc cr.record eff

/-- Printable name of an operation kind. -/
def opName : OpKind → String
  | .create => "create"
  | .update => "update"
  | .delete => "delete"

/-- Modelled from the spec: the aggregate error of §4.5/§7 — it names the
failing operation, identifies the failing record, and carries the
underlying cause. -/
def aggregateErrMsg (cr : ChangeRequest) (cause : String) : String :=
  opName cr.op ++ " failed for record " ++ goQuote cr.record.id ++
    " (" ++ cr.record.rtype ++ " " ++ cr.record.dnsName ++ "): " ++ cause

/-- Modelled from the spec: `raw.ExecuteRequests` (pkg/dns/provider/raw
is not under `src/`, part_000:120 only calls it) — apply the requests
strictly in input order; on the first failing operation stop, leaving the
remaining requests unattempted, and return one aggregate error (§4.5). -/
def ExecuteRequests (svc : RemoteService) :
    List ChangeRequest → Effects → Effects × Except String Unit
  | [], eff => (eff, .ok ())
  | cr :: rest, eff =>
    match applyRequest svc cr eff with
    | (eff, .ok _) => ExecuteRequests svc rest eff
    | (eff, .error e) => (eff, .error (aggregateErrMsg cr e))

/-! ## Auxiliary notions and concrete fixtures used by the theorems -/

/-- `needle` occurs contiguously inside `hay`. -/
def strContains (hay needle : String) : Prop :=
  ∃ p s, hay = p ++ needle ++ s

/-- A remote service on which every operation succeeds and every listing
is a single empty last page. -/
def svcAllOk : RemoteService :=
  { listPage := fun _ => .ok ([], { links := none }),
    recordsPage := fun _ _ => .ok ([], { links := none }),
    createRecord := fun _ _ => .ok (),
    editRecord := fun _ _ _ => .ok (),
    deleteRecord := fun _ _ => .ok () }

/-- A remote service hosting two domains, the first with one delegation
NS record and the second with no records at all. -/
def svcTwoZones : RemoteService :=
  { svcAllOk with
    listPage := fun _ =>
      .ok ([{ name := "a.com" }, { name := "b.com" }], { links := none }),
    recordsPage := fun d _ =>
      if d == "a.com" then
        .ok ([{ id := 1, rtype := "NS", name := "sub.a.com",
                data := "ns1.example.org", ttl := 3600 }], { links := none })
      else .ok ([], { links := none }) }

/-- A remote service on which every mutation fails. -/
def svcErr : RemoteService :=
  { svcAllOk with
    createRecord := fun _ _ => .error "cerr",
    editRecord := fun _ _ _ => .error "uerr",
    deleteRecord := fun _ _ => .error "derr" }

/-- A concrete record with a numeric identifier. -/
def rid7 : Record :=
  { id := "7", rtype := "A", dnsName := "foo.example.com",
    value := "1.2.3.4", ttl := 120, domain := "example.com" }

/-- A concrete record whose identifier does not parse as an integer. -/
def rbad : Record :=
  { id := "abc", rtype := "A", dnsName := "foo.example.com",
    value := "1.2.3.4", ttl := 120, domain := "example.com" }

lemma strContains_mutationErrMsg (verb : String) (r : Record)
    (cause : String) :
    strContains ("failed to " ++ verb ++ " record of type " ++
        goQuote r.rtype ++ " for DNS name " ++ goQuote r.dnsName ++
        " and value " ++ goQuote r.value ++ ": " ++ cause) r.rtype ∧
    strContains ("failed to " ++ verb ++ " record of type " ++
        goQuote r.rtype ++ " for DNS name " ++ goQuote r.dnsName ++
        " and value " ++ goQuote r.value ++ ": " ++ cause) r.dnsName ∧
    strContains ("failed to " ++ verb ++ " record of type " ++
        goQuote r.rtype ++ " for DNS name " ++ goQuote r.dnsName ++
        " and value " ++ goQuote r.value ++ ": " ++ cause) r.value ∧
    strContains ("failed to " ++ verb ++ " record of type " ++
        goQuote r.rtype ++ " for DNS name " ++ goQuote r.dnsName ++
        " and value " ++ goQuote r.value ++ ": " ++ cause) cause := by
  refine
    ⟨⟨"failed to " ++ verb ++ " record of type " ++ "\"",
      "\"" ++ " for DNS name " ++ goQuote r.dnsName ++ " and value " ++
        goQuote r.value ++ ": " ++ cause, ?_⟩,
     ⟨"failed to " ++ verb ++ " record of type " ++ goQuote r.rtype ++
        " for DNS name " ++ "\"",
      "\"" ++ " and value " ++ goQuote r.value ++ ": " ++ cause, ?_⟩,
     ⟨"failed to " ++ verb ++ " record of type " ++ goQuote r.rtype ++
        " for DNS name " ++ goQuote r.dnsName ++ " and value " ++ "\"",
      "\"" ++ ": " ++ cause, ?_⟩,
     ⟨"failed to " ++ verb ++ " record of type " ++ goQuote r.rtype ++
        " for DNS name " ++ goQuote r.dnsName ++ " and value " ++
        goQuote r.value ++ ": ", "", ?_⟩⟩ <;>
  · apply String.ext
    simp [goQuote, String.data_append, List.append_assoc]

lemma strContains_createErrMsg (r : Record) (cause : String) :
    strContains (createErrMsg r cause) r.rtype ∧
    strContains (createErrMsg r cause) r.dnsName ∧
    strContains (createErrMsg r cause) r.value ∧
    strContains (createErrMsg r cause) cause :=
  strContains_mutationErrMsg "create" r cause

lemma strContains_updateErrMsg (r : Record) (cause : String) :
    strContains (updateErrMsg r cause) r.rtype ∧
    strContains (updateErrMsg r cause) r.dnsName ∧
    strContains (updateErrMsg r cause) r.value ∧
    strContains (updateErrMsg r cause) cause :=
  strContains_mutationErrMsg "update" r cause

lemma strContains_deleteErrMsg (r : Record) (cause : String) :
    strContains (deleteErrMsg r cause) r.rtype ∧
    strContains (deleteErrMsg r cause) r.dnsName ∧
    strContains (deleteErrMsg r cause) r.value ∧
    strContains (deleteErrMsg r cause) cause :=
  strContains_mutationErrMsg "delete" r cause

/-- A well-formed paginated listing with the given pages: every page in
`1..chunks.length` is served with `CurrentPage` reporting the requested
page and the last page marked; any other page number is an error. -/
def stdFetch (chunks : List (List α)) :
    Nat → Except String (List α × Response) := fun page =>
  if 1 ≤ page ∧ page ≤ chunks.length then
    .ok (chunks.getD (page - 1) [],
      { links := some { isLastPage := page == chunks.length,
                        currentPage := .ok page } })
  else .error "page out of range"

/-- A paginated listing that serves `chunks.length` pages, none marked
last, and then fails with `e` on the next page request. -/
def errFetch (chunks : List (List α)) (e : String) :
    Nat → Except String (List α × Response) := fun page =>
  if 1 ≤ page ∧ page ≤ chunks.length then
    .ok (chunks.getD (page - 1) [],
      { links := some { isLastPage := false, currentPage := .ok page } })
  else .error e

/-- A remote service whose domain listing is paginated into `chunks`. -/
def pagedDomainsSvc (chunks : List (List Domain)) : RemoteService :=
  { svcAllOk with listPage := stdFetch chunks }

/-- A remote service whose record listing is paginated into `chunks`. -/
def pagedRecordsSvc (chunks : List (List DomainRecord)) : RemoteService :=
  { svcAllOk with recordsPage := fun _ => stdFetch chunks }

/-- A remote service whose domain listing fails with `e` after
`chunks.length` successful pages. -/
def pagedDomainsSvcErr (chunks : List (List Domain)) (e : String) :
    RemoteService :=
  { svcAllOk with listPage := errFetch chunks e }

/-- A remote service whose record listing fails with `e` after
`chunks.length` successful pages. -/
def pagedRecordsSvcErr (chunks : List (List DomainRecord)) (e : String) :
    RemoteService :=
  { svcAllOk with recordsPage := fun _ => errFetch chunks e }

lemma pagedLoop_stdFetch (chunks : List (List α)) (log : Nat → RemoteCall) :
    ∀ (fuel k : Nat) (acc : List α) (eff : Effects), k < chunks.length →
      chunks.length - k ≤ fuel →
      (pagedLoop (stdFetch chunks) log fuel (k + 1) acc eff).2 =
        .ok (acc ++ (chunks.drop k).flatten) := by
  intro fuel
  induction fuel with
  | zero => intro k acc eff hk hf; omega
  | succ n ih =>
    intro k acc eff hk hf
    have hdrop := List.drop_eq_getElem_cons hk
    have hgetD := List.getD_eq_getElem chunks [] hk
    simp only [pagedLoop, stdFetch]
    rw [if_pos ⟨by omega, by omega⟩]
    by_cases hlast : k + 1 = chunks.length
    · have hnil : chunks.drop (k + 1) = [] := List.drop_eq_nil_of_le (by omega)
      have hbeq : (k + 1 == chunks.length) = true := by simp [hlast]
      simp only [hbeq, if_true, Nat.add_sub_cancel]
      simp [hdrop, hnil, List.getElem?_eq_getElem hk]
    · have hk1 : k + 1 < chunks.length := by omega
      have hbeq : (k + 1 == chunks.length) = false := by
        simp only [Nat.beq_eq_true_eq, beq_eq_false_iff_ne, ne_eq]
        omega
      simp only [hbeq, Bool.false_eq_true, if_false, Nat.add_sub_cancel]
      rw [ih (k + 1) (acc ++ chunks.getD k []) _ hk1 (by omega)]
      rw [hgetD]
      simp only [List.append_assoc]
      rw [hdrop, List.flatten_cons]

lemma pagedLoop_errFetch (chunks : List (List α)) (e : String)
    (log : Nat → RemoteCall) :
    ∀ (fuel k : Nat) (acc : List α) (eff : Effects), k ≤ chunks.length →
      chunks.length + 1 - k ≤ fuel →
      (pagedLoop (errFetch chunks e) log fuel (k + 1) acc eff).2 =
        .error e := by
  intro fuel
  induction fuel with
  | zero => intro k acc eff hk hf; omega
  | succ n ih =>
    intro k acc eff hk hf
    by_cases hend : k = chunks.length
    · simp only [pagedLoop, errFetch]
      rw [if_neg (by omega)]
    · have hk1 : k < chunks.length := by omega
      simp only [pagedLoop, errFetch]
      rw [if_pos ⟨by omega, by omega⟩]
      simp only [Bool.false_eq_true, if_false]
      exact ih (k + 1) _ _ (by omega) (by omega)

lemma pagedLoop_metrics_tokens
    (fetch : Nat → Except String (List α × Response))
    (log : Nat → RemoteCall) :
    ∀ (fuel page : Nat) (acc : List α) (eff : Effects),
      (pagedLoop fetch log fuel page acc eff).1.metrics = eff.metrics ∧
      (pagedLoop fetch log fuel page acc eff).1.tokens = eff.tokens := by
  intro fuel
  induction fuel with
  | zero => intro page acc eff; simp [pagedLoop]
  | succ n ih =>
    intro page acc eff
    simp only [pagedLoop]
    rcases fetch page with e | ⟨items, resp⟩
    · simp
    · rcases resp with ⟨_ | links⟩
      · simp
      · by_cases hl : links.isLastPage
        · simp [hl]
        · rcases hc : links.currentPage with e | p
          · simp [hl, hc]
          · simp [hl, hc, ih]

/-- The submitted TTL is the max of the record's TTL and the floor 30. -/
lemma createRecordRequest_ttl (r : Record) :
    (createRecordRequest r).ttl = max r.ttl 30 := by
  by_cases h : r.ttl < 30
  · simp only [createRecordRequest, if_pos h]
    exact (max_eq_right h.le).symm
  · simp only [createRecordRequest, if_neg h]
    exact (max_eq_left (by omega)).symm

/-- The outcome of one change request, which is independent of the
incoming effect log (see `applyRequest_snd`). -/
def reqOutcome (svc : RemoteService) (cr : ChangeRequest) :
    Except String Unit :=
  (applyRequest svc cr {}).2

lemma CreateRecord_snd_indep (svc : RemoteService) (r : Record)
    (eff : Effects) : (CreateRecord svc r eff).2 = (CreateRecord svc r {}).2 := by
  cases h : svc.createRecord r.domain (createRecordRequest r) <;>
    simp [CreateRecord, h]

lemma UpdateRecord_snd_indep (svc : RemoteService) (r : Record)
    (eff : Effects) : (UpdateRecord svc r eff).2 = (UpdateRecord svc r {}).2 := by
  cases ha : Atoi r.id with
  | error e => simp [UpdateRecord, ha]
  | ok n =>
    cases h : svc.editRecord r.domain n (createRecordRequest r) <;>
      simp [UpdateRecord, ha, h]

lemma DeleteRecord_snd_indep (svc : RemoteService) (r : Record)
    (eff : Effects) : (DeleteRecord svc r eff).2 = (DeleteRecord svc r {}).2 := by
  cases ha : Atoi r.id with
  | error e => simp [DeleteRecord, ha]
  | ok n =>
    cases h : svc.deleteRecord r.domain n <;> simp [DeleteRecord, ha, h]

lemma applyRequest_snd (svc : RemoteService) (cr : ChangeRequest)
    (eff : Effects) : (applyRequest svc cr eff).2 = reqOutcome svc cr := by
  unfold reqOutcome applyRequest
  cases cr.op
  · exact CreateRecord_snd_indep svc cr.record eff
  · exact UpdateRecord_snd_indep svc cr.record eff
  · exact DeleteRecord_snd_indep svc cr.record eff

/-- The effect log after applying a list of requests in order. -/
def applyEffects (svc : RemoteService) (crs : List ChangeRequest)
    (eff : Effects) : Effects :=
  crs.foldl (fun e cr => (applyRequest svc cr e).1) eff

lemma strContains_aggregateErrMsg (cr : ChangeRequest) (cause : String) :
    strContains (aggregateErrMsg cr cause) cr.record.id ∧
    strContains (aggregateErrMsg cr cause) cause := by
  constructor
  · refine ⟨opName cr.op ++ " failed for record " ++ "\"",
      "\"" ++ " (" ++ cr.record.rtype ++ " " ++ cr.record.dnsName ++
        "): " ++ cause, ?_⟩
    apply String.ext
    simp [aggregateErrMsg, goQuote, String.data_append, List.append_assoc]
  · refine ⟨opName cr.op ++ " failed for record " ++ goQuote cr.record.id ++
      " (" ++ cr.record.rtype ++ " " ++ cr.record.dnsName ++ "): ", "", ?_⟩
    apply String.ext
    simp [aggregateErrMsg, goQuote, String.data_append, List.append_assoc]

lemma addRecordToSets_mem (sets : List DNSSet) (r : Record) :
    ∃ s ∈ addRecordToSets sets r, s.name = r.dnsName ∧ s.rtype = r.rtype ∧
      (r.value, r.ttl) ∈ s.entries := by
  induction sets with
  | nil =>
    exact ⟨{ name := r.dnsName, rtype := r.rtype,
             entries := [(r.value, r.ttl)] },
           by simp [addRecordToSets], rfl, rfl, by simp⟩
  | cons s rest ih =>
    by_cases h : s.name = r.dnsName ∧ s.rtype = r.rtype
    · refine ⟨{ s with entries := s.entries ++ [(r.value, r.ttl)] },
        ?_, h.1, h.2, by simp⟩
      simp [addRecordToSets, h]
    · obtain ⟨t, ht, h1, h2, h3⟩ := ih
      exact ⟨t, by simp [addRecordToSets, h, ht], h1, h2, h3⟩

lemma addRecordToSets_mono (sets : List DNSSet) (r : Record)
    (n ty : String) (e : String × Int)
    (h : ∃ s ∈ sets, s.name = n ∧ s.rtype = ty ∧ e ∈ s.entries) :
    ∃ s ∈ addRecordToSets sets r,
      s.name = n ∧ s.rtype = ty ∧ e ∈ s.entries := by
  induction sets with
  | nil => simp at h
  | cons s rest ih =>
    obtain ⟨t, ht, hP⟩ := h
    by_cases hc : s.name = r.dnsName ∧ s.rtype = r.rtype
    · rcases List.mem_cons.mp ht with rfl | htr
      · refine ⟨{ t with entries := t.entries ++ [(r.value, r.ttl)] },
          by simp [addRecordToSets, hc], hP.1, hP.2.1, ?_⟩
        simp [hP.2.2]
      · exact ⟨t, by simp [addRecordToSets, hc, htr], hP⟩
    · rcases List.mem_cons.mp ht with rfl | htr
      · exact ⟨t, by simp [addRecordToSets, hc], hP⟩
      · obtain ⟨u, hu, hPu⟩ := ih ⟨t, htr, hP⟩
        exact ⟨u, by simp [addRecordToSets, hc, hu], hPu⟩

lemma foldl_addRecordToSets_mono (rs : List Record) (pre : List DNSSet)
    (n ty : String) (e : String × Int)
    (h : ∃ s ∈ pre, s.name = n ∧ s.rtype = ty ∧ e ∈ s.entries) :
    ∃ s ∈ rs.foldl addRecordToSets pre,
      s.name = n ∧ s.rtype = ty ∧ e ∈ s.entries := by
  induction rs generalizing pre with
  | nil => simpa using h
  | cons a as ih =>
    simp only [List.foldl_cons]
    exact ih _ (addRecordToSets_mono pre a n ty e h)

lemma foldl_addRecordToSets_mem :
    ∀ (rs : List Record) (pre : List DNSSet) (r : Record), r ∈ rs →
      ∃ s ∈ rs.foldl addRecordToSets pre,
        s.name = r.dnsName ∧ s.rtype = r.rtype ∧
          (r.value, r.ttl) ∈ s.entries := by
  intro rs
  induction rs with
  | nil => intro pre r hr; simp at hr
  | cons a as ih =>
    intro pre r hr
    rcases List.mem_cons.mp hr with rfl | hr'
    · simp only [List.foldl_cons]
      exact foldl_addRecordToSets_mono as _ _ _ _ (addRecordToSets_mem pre r)
    · simp only [List.foldl_cons]
      exact ih _ r hr'

lemma calculateDNSSets_mem (rs : List Record) (r : Record) (hr : r ∈ rs) :
    ∃ s ∈ CalculateDNSSets rs, s.name = r.dnsName ∧ s.rtype = r.rtype ∧
      (r.value, r.ttl) ∈ s.entries :=
  foldl_addRecordToSets_mem rs [] r hr

/-! ## Claims -/

/-- C1 (code bug): on a remote service with two domains — "a.com" with a
single delegation record `NS sub.a.com` and "b.com" with no records —
`getZones` hands the zone descriptor of "b.com" the forwarded list
`["sub.a.com"]`, a name coming from "a.com": the `forwarded` slice
(part_000:75) is declared outside the per-domain loop and accumulates
across zones, so the claim's "no names coming from other zones" fails. -/
theorem getZones_forwarded_leaks_across_zones :
    ((getZones svcTwoZones 5 {}).2.map fun zs =>
      zs.map DNSHostedZone.forwarded) =
      .ok [["sub.a.com"], ["sub.a.com"]] := by
  rfl

/-- C2: the TTL submitted to the remote service equals `max t 30` where
`t` is the record's TTL: `createRecordRequest` is exactly the max-with-30
of the record's TTL, the request logged by the remote create is
`createRecordRequest r`, and (when the identifier parses) so is the
request logged by the remote edit.  In particular a TTL `t ≥ 30` is
submitted unchanged and a TTL below 30 is raised, not rejected. -/
theorem submittedTTL_eq_max_ttl_30 (svc : RemoteService) (r : Record)
    (eff : Effects) (n : Int) :
    (createRecordRequest r).ttl = max r.ttl 30 ∧
    (CreateRecord svc r eff).1.remoteCalls =
      eff.remoteCalls ++ [RemoteCall.create r.domain (createRecordRequest r)] ∧
    (Atoi r.id = .ok n →
      (UpdateRecord svc r eff).1.remoteCalls =
        eff.remoteCalls ++
          [RemoteCall.edit r.domain n (createRecordRequest r)]) := by
  refine ⟨?_, ?_, ?_⟩
  · by_cases h : r.ttl < 30
    · simp only [createRecordRequest, if_pos h]
      exact (max_eq_right h.le).symm
    · simp only [createRecordRequest, if_neg h]
      exact (max_eq_left (by omega)).symm
  · cases h : svc.createRecord r.domain (createRecordRequest r) <;>
      simp [CreateRecord, h]
  · intro hn
    cases h : svc.editRecord r.domain n (createRecordRequest r) <;>
      simp [UpdateRecord, hn, h]

/-- Witness for C2 at concrete inputs: a TTL of 10 is raised to 30, a
TTL of 120 is submitted unchanged, and the update for record id "7"
logs the floored request. -/
theorem submittedTTL_eq_max_ttl_30_witness :
    (createRecordRequest { rid7 with ttl := 10 }).ttl = 30 ∧
    (createRecordRequest rid7).ttl = 120 ∧
    (UpdateRecord svcAllOk rid7 {}).1.remoteCalls =
      [RemoteCall.edit "example.com" 7 (createRecordRequest rid7)] := by
  have h1 := submittedTTL_eq_max_ttl_30 svcAllOk { rid7 with ttl := 10 } {} 7
  have h2 := submittedTTL_eq_max_ttl_30 svcAllOk rid7 {} 7
  refine ⟨h1.1.trans (by decide), h2.1.trans (by decide), ?_⟩
  have h3 := h2.2.2 (by rfl)
  simpa using h3

/-- C3: over a well-formed paginated listing with pages `1..N` (any
`N ≥ 1`, any page contents), `ListDomains` and `ListRecords` return
exactly the concatenation of all pages in request order; and when a page
request fails, the call returns that error with no partial result. -/
theorem list_paginated_concat_or_error
    (dchunks : List (List Domain)) (rchunks : List (List DomainRecord))
    (domain : String) (fuel : Nat) (eff : Effects) (e : String)
    (hd : dchunks ≠ []) (hr : rchunks ≠ [])
    (hfd : dchunks.length + 1 ≤ fuel) (hfr : rchunks.length + 1 ≤ fuel) :
    (ListDomains (pagedDomainsSvc dchunks) fuel eff).2 =
      .ok dchunks.flatten ∧
    (ListRecords (pagedRecordsSvc rchunks) domain fuel eff).2 =
      .ok rchunks.flatten ∧
    (ListDomains (pagedDomainsSvcErr dchunks e) fuel eff).2 = .error e ∧
    (ListRecords (pagedRecordsSvcErr rchunks e) domain fuel eff).2 =
      .error e := by
  have hd0 : 0 < dchunks.length := List.length_pos.mpr hd
  have hr0 : 0 < rchunks.length := List.length_pos.mpr hr
  refine ⟨?_, ?_, ?_, ?_⟩
  · have h := pagedLoop_stdFetch dchunks RemoteCall.listPage fuel 0 []
      { eff with metrics := eff.metrics ++ [MetricType.M_LISTZONES],
                 tokens := eff.tokens + 1 } hd0 (by omega)
    simpa [ListDomains, pagedDomainsSvc] using h
  · have h := pagedLoop_stdFetch rchunks (RemoteCall.recordsPage domain)
      fuel 0 []
      { eff with metrics := eff.metrics ++ [MetricType.M_LISTRECORDS],
                 tokens := eff.tokens + 1 } hr0 (by omega)
    simpa [ListRecords, pagedRecordsSvc] using h
  · have h := pagedLoop_errFetch dchunks e RemoteCall.listPage fuel 0 []
      { eff with metrics := eff.metrics ++ [MetricType.M_LISTZONES],
                 tokens := eff.tokens + 1 } (by omega) (by omega)
    simpa [ListDomains, pagedDomainsSvcErr] using h
  · have h := pagedLoop_errFetch rchunks e (RemoteCall.recordsPage domain)
      fuel 0 []
      { eff with metrics := eff.metrics ++ [MetricType.M_LISTRECORDS],
                 tokens := eff.tokens + 1 } (by omega) (by omega)
    simpa [ListRecords, pagedRecordsSvcErr] using h

/-- Two concrete domain pages. -/
def dchunksW : List (List Domain) :=
  [[{ name := "a.com" }], [{ name := "b.com" }]]

/-- Two concrete record pages. -/
def rchunksW : List (List DomainRecord) :=
  [[{ id := 1, rtype := "A", name := "foo.a.com", data := "1.2.3.4",
      ttl := 60 }],
   [{ id := 2, rtype := "TXT", name := "bar.a.com", data := "x",
      ttl := 120 }]]

/-- Witness for C3 on two-page listings: the calls return the two pages
concatenated, and the erroring variants return the page error. -/
theorem list_paginated_concat_or_error_witness :
    dchunksW ≠ [] ∧ rchunksW ≠ [] ∧ dchunksW.length + 1 ≤ 3 ∧
    (ListDomains (pagedDomainsSvc dchunksW) 3 {}).2 =
      .ok dchunksW.flatten ∧
    (ListRecords (pagedRecordsSvc rchunksW) "a.com" 3 {}).2 =
      .ok rchunksW.flatten ∧
    (ListDomains (pagedDomainsSvcErr dchunksW "boom") 3 {}).2 =
      .error "boom" ∧
    (ListRecords (pagedRecordsSvcErr rchunksW "boom") "a.com" 3 {}).2 =
      .error "boom" := by
  have h := list_paginated_concat_or_error dchunksW rchunksW "a.com" 3 {}
    "boom" (by decide) (by decide) (by decide) (by decide)
  exact ⟨by decide, by decide, by decide, h.1, h.2.1, h.2.2.1, h.2.2.2⟩

/-- C4: every `ListDomains` or `ListRecords` call appends exactly one
metric increment and consumes exactly one rate-limiter token, for every
remote service and fuel — i.e. regardless of how many pages the
pagination loop fetches. -/
theorem list_one_token_one_metric (svc : RemoteService) (domain : String)
    (fuel : Nat) (eff : Effects) :
    (ListDomains svc fuel eff).1.metrics =
      eff.metrics ++ [MetricType.M_LISTZONES] ∧
    (ListDomains svc fuel eff).1.tokens = eff.tokens + 1 ∧
    (ListRecords svc domain fuel eff).1.metrics =
      eff.metrics ++ [MetricType.M_LISTRECORDS] ∧
    (ListRecords svc domain fuel eff).1.tokens = eff.tokens + 1 := by
  have h1 := pagedLoop_metrics_tokens svc.listPage RemoteCall.listPage
    fuel 1 []
    { eff with metrics := eff.metrics ++ [MetricType.M_LISTZONES],
               tokens := eff.tokens + 1 }
  have h2 := pagedLoop_metrics_tokens (svc.recordsPage domain)
    (RemoteCall.recordsPage domain) fuel 1 []
    { eff with metrics := eff.metrics ++ [MetricType.M_LISTRECORDS],
               tokens := eff.tokens + 1 }
  exact ⟨h1.1, h1.2, h2.1, h2.2⟩

/-- C5: when the record identifier fails integer parsing, `UpdateRecord`
and `DeleteRecord` return the validation error wrapping the parse
failure, and the effect log is returned unchanged: no remote call is
issued (and no metric or token is recorded). -/
theorem update_delete_invalid_id_validation_error (svc : RemoteService)
    (r : Record) (eff : Effects) (e : String)
    (hu : Atoi r.id = .error e) :
    UpdateRecord svc r eff = (eff, .error (updateIdErrMsg r.id e)) ∧
    DeleteRecord svc r eff = (eff, .error (deleteIdErrMsg r.id e)) := by
  constructor <;> simp [UpdateRecord, DeleteRecord, hu]

/-- Witness for C5: the identifier "abc" fails parsing; update and
delete return the validation error with an unchanged effect log. -/
theorem update_delete_invalid_id_validation_error_witness :
    Atoi "abc" =
      .error "strconv.Atoi: parsing \"abc\": invalid syntax" ∧
    UpdateRecord svcAllOk rbad {} =
      ({}, .error (updateIdErrMsg "abc"
        "strconv.Atoi: parsing \"abc\": invalid syntax")) ∧
    DeleteRecord svcAllOk rbad {} =
      ({}, .error (deleteIdErrMsg "abc"
        "strconv.Atoi: parsing \"abc\": invalid syntax")) := by
  have h := update_delete_invalid_id_validation_error svcAllOk rbad {}
    "strconv.Atoi: parsing \"abc\": invalid syntax" (by rfl)
  exact ⟨rfl, h.1, h.2⟩

/-- C8: whenever the remote create, edit or delete call fails, the
returned error is the wrapped message containing the record's type, DNS
name and value together with the underlying cause; a non-`ok` remote
result always yields a non-`ok` returned result (nothing is swallowed). -/
theorem mutation_errors_contain_context (svc : RemoteService) (r : Record)
    (eff : Effects) (n : Int) (ec eu ed : String)
    (hc : svc.createRecord r.domain (createRecordRequest r) = .error ec)
    (hn : Atoi r.id = .ok n)
    (hu : svc.editRecord r.domain n (createRecordRequest r) = .error eu)
    (hd : svc.deleteRecord r.domain n = .error ed) :
    ((CreateRecord svc r eff).2 = .error (createErrMsg r ec) ∧
      strContains (createErrMsg r ec) r.rtype ∧
      strContains (createErrMsg r ec) r.dnsName ∧
      strContains (createErrMsg r ec) r.value ∧
      strContains (createErrMsg r ec) ec) ∧
    ((UpdateRecord svc r eff).2 = .error (updateErrMsg r eu) ∧
      strContains (updateErrMsg r eu) r.rtype ∧
      strContains (updateErrMsg r eu) r.dnsName ∧
      strContains (updateErrMsg r eu) r.value ∧
      strContains (updateErrMsg r eu) eu) ∧
    ((DeleteRecord svc r eff).2 = .error (deleteErrMsg r ed) ∧
      strContains (deleteErrMsg r ed) r.rtype ∧
      strContains (deleteErrMsg r ed) r.dnsName ∧
      strContains (deleteErrMsg r ed) r.value ∧
      strContains (deleteErrMsg r ed) ed) := by
  obtain ⟨c1, c2, c3, c4⟩ := strContains_createErrMsg r ec
  obtain ⟨u1, u2, u3, u4⟩ := strContains_updateErrMsg r eu
  obtain ⟨d1, d2, d3, d4⟩ := strContains_deleteErrMsg r ed
  refine ⟨⟨?_, c1, c2, c3, c4⟩, ⟨?_, u1, u2, u3, u4⟩, ⟨?_, d1, d2, d3, d4⟩⟩
  · simp [CreateRecord, hc]
  · simp [UpdateRecord, hn, hu]
  · simp [DeleteRecord, hn, hd]

/-- Witness for C8: on a service whose mutations all fail, the three
operations on record id "7" each return the wrapped error. -/
theorem mutation_errors_contain_context_witness :
    Atoi "7" = .ok 7 ∧
    (CreateRecord svcErr rid7 {}).2 = .error (createErrMsg rid7 "cerr") ∧
    (UpdateRecord svcErr rid7 {}).2 = .error (updateErrMsg rid7 "uerr") ∧
    (DeleteRecord svcErr rid7 {}).2 = .error (deleteErrMsg rid7 "derr") ∧
    strContains (createErrMsg rid7 "cerr") rid7.rtype := by
  have h := mutation_errors_contain_context svcErr rid7 {} 7
    "cerr" "uerr" "derr" rfl rfl rfl rfl
  exact ⟨rfl, h.1.1, h.2.1.1, h.2.2.1, h.1.2.1⟩

/-- The zone of the spec's scenario. -/
def zoneEx : DNSHostedZone :=
  { providerType := ProviderTypeDigitalOcean, id := "example.com",
    domain := "example.com", key := "example.com", forwarded := [],
    isPrivate := false }

/-- The A record of the spec's scenario, TTL 10 (below the floor). -/
def recA : DomainRecord :=
  { id := 10, rtype := "A", name := "example.com", data := "1.2.3.4",
    ttl := 10 }

/-- The NS delegation record of the spec's scenario. -/
def recNS : DomainRecord :=
  { id := 11, rtype := "NS", name := "sub.example.com",
    data := "ns1.example.com", ttl := 3600 }

/-- A remote service serving the scenario's two records as one page. -/
def svcExample : RemoteService :=
  { svcAllOk with
    recordsPage := fun _ _ => .ok ([recA, recNS], { links := none }) }

/-- C6 counterexample: with the remote service of the spec's scenario,
two consecutive `GetZoneState` calls on the handler's cache (as built by
`NewHandler`, which passes `CopyWithDisabledZoneStateCache`) trigger one
remote fetch each — two in total, not one — even though zone-state
caching was requested in the incoming configuration. -/
theorem getZoneState_two_calls_two_fetches :
    (HandlerGetZoneState svcExample 1
        (NewHandlerZoneCache { zoneStateCacheEnabled := true }) zoneEx).2.1 +
      (HandlerGetZoneState svcExample 1
        (HandlerGetZoneState svcExample 1
          (NewHandlerZoneCache { zoneStateCacheEnabled := true })
          zoneEx).1 zoneEx).2.1 = 2 ∧
    ¬((HandlerGetZoneState svcExample 1
        (NewHandlerZoneCache { zoneStateCacheEnabled := true }) zoneEx).2.1 +
      (HandlerGetZoneState svcExample 1
        (HandlerGetZoneState svcExample 1
          (NewHandlerZoneCache { zoneStateCacheEnabled := true })
          zoneEx).1 zoneEx).2.1 = 1) := by
  constructor
  · rfl
  · decide

/-- C6 amended: two consecutive `GetZoneState` calls with no intervening
conflict report return the identical snapshot, but each call triggers its
own remote fetch (two in total): `NewHandler` constructs the zone cache
with `CopyWithDisabledZoneStateCache`, so the snapshot is rebuilt on
every call and the cache table stays empty. -/
theorem getZoneState_refetches_each_call (svc : RemoteService)
    (fuel : Nat) (c : ZoneCacheConfig) (zone : DNSHostedZone) :
    HandlerGetZoneState svc fuel (NewHandlerZoneCache c) zone =
      (NewHandlerZoneCache c, 1, (getZoneState svc fuel zone {}).2) ∧
    HandlerGetZoneState svc fuel
        (HandlerGetZoneState svc fuel (NewHandlerZoneCache c) zone).1
        zone =
      (NewHandlerZoneCache c, 1, (getZoneState svc fuel zone {}).2) := by
  constructor <;> rfl

/-- A remote service on which record edits fail (with cause "conflict")
and everything else succeeds. -/
def svcUpdFails : RemoteService :=
  { svcAllOk with editRecord := fun _ _ _ => .error "conflict" }

/-- The spec scenario's failing update request, targeting record id 7. -/
def requpd7 : ChangeRequest :=
  { record := rid7, existing := true, remove := false }

/-- The spec scenario's create request for `foo.example.com`, queued
after the failing update. -/
def reqCreateFoo : ChangeRequest :=
  { record := { id := "", rtype := "A", dnsName := "foo.example.com",
                value := "1.2.3.4", ttl := 60, domain := "example.com" },
    existing := false, remove := false }

/-- C7: for a batch `pre ++ failing :: post` in which every request of
`pre` succeeds and `failing` fails with cause `e`, the executor applies
exactly `pre` in input order (the final effect log is the in-order fold
over `pre` followed by the failing request's own effects — the requests
of `post` are never attempted and the effects of `pre` remain applied),
and returns the single aggregate error, which names the failing record's
identifier and the underlying cause. -/
theorem executeRequests_in_order_abort_on_first_failure
    (svc : RemoteService) (pre post : List ChangeRequest)
    (cr : ChangeRequest) (eff : Effects) (e : String)
    (hok : ∀ r ∈ pre, reqOutcome svc r = .ok ())
    (hfail : reqOutcome svc cr = .error e) :
    ExecuteRequests svc (pre ++ cr :: post) eff =
      ((applyRequest svc cr (applyEffects svc pre eff)).1,
       .error (aggregateErrMsg cr e)) ∧
    strContains (aggregateErrMsg cr e) cr.record.id ∧
    strContains (aggregateErrMsg cr e) e := by
  refine ⟨?_, (strContains_aggregateErrMsg cr e).1,
    (strContains_aggregateErrMsg cr e).2⟩
  induction pre generalizing eff with
  | nil =>
    rcases hap : applyRequest svc cr eff with ⟨eff1, res⟩
    have h : (eff1, res).2 = reqOutcome svc cr := hap ▸ applyRequest_snd svc cr eff
    have h2 : res = .error e := h.trans hfail
    subst h2
    simp only [List.nil_append, ExecuteRequests, hap, applyEffects,
      List.foldl_nil]
  | cons a pre' ih =>
    have ha : reqOutcome svc a = .ok () := hok a (by simp)
    rcases hap : applyRequest svc a eff with ⟨eff1, res⟩
    have h : (eff1, res).2 = reqOutcome svc a := hap ▸ applyRequest_snd svc a eff
    have h2 : res = .ok () := h.trans ha
    subst h2
    have hstep := ih eff1 (fun r hr => hok r (List.mem_cons_of_mem a hr))
    simp only [List.cons_append, ExecuteRequests, hap, List.append_eq]
    rw [hstep]
    simp [applyEffects, hap]

/-- Witness for C7 at the spec's scenario: the batch
`[update id 7 (remote edit fails), create foo.example.com]` aborts after
the failing update — the only remote call issued is the edit for record
7, the create is never attempted — and the returned aggregate error
contains "7". -/
theorem executeRequests_abort_witness :
    reqOutcome svcUpdFails requpd7 =
      .error (updateErrMsg rid7 "conflict") ∧
    ExecuteRequests svcUpdFails [requpd7, reqCreateFoo] {} =
      ((applyRequest svcUpdFails requpd7 (applyEffects svcUpdFails [] {})).1,
       .error (aggregateErrMsg requpd7 (updateErrMsg rid7 "conflict"))) ∧
    (ExecuteRequests svcUpdFails [requpd7, reqCreateFoo] {}).1.remoteCalls =
      [RemoteCall.edit "example.com" 7 (createRecordRequest rid7)] ∧
    strContains (aggregateErrMsg requpd7 (updateErrMsg rid7 "conflict")) "7" := by
  have h := executeRequests_in_order_abort_on_first_failure svcUpdFails []
    [reqCreateFoo] requpd7 {} (updateErrMsg rid7 "conflict")
    (by intro r hr; simp at hr) rfl
  have h1 : ExecuteRequests svcUpdFails [requpd7, reqCreateFoo] {} =
      ((applyRequest svcUpdFails requpd7
          (applyEffects svcUpdFails [] {})).1,
       .error (aggregateErrMsg requpd7 (updateErrMsg rid7 "conflict"))) := by
    simpa using h.1
  exact ⟨rfl, h1, by rw [h1]; rfl, h.2.1⟩

/-- C10: when the record identifier fails integer parsing, `UpdateRecord`
and `DeleteRecord` record no metric increment and consume no rate-limiter
token: the validation happens before either effect. -/
theorem invalid_id_no_metric_no_token (svc : RemoteService) (r : Record)
    (eff : Effects) (e : String) (hu : Atoi r.id = .error e) :
    (UpdateRecord svc r eff).1.metrics = eff.metrics ∧
    (UpdateRecord svc r eff).1.tokens = eff.tokens ∧
    (DeleteRecord svc r eff).1.metrics = eff.metrics ∧
    (DeleteRecord svc r eff).1.tokens = eff.tokens := by
  simp [UpdateRecord, DeleteRecord, hu]

/-- Witness for C10: with identifier "abc", update and delete leave the
metric log and token count untouched. -/
theorem invalid_id_no_metric_no_token_witness :
    Atoi "abc" =
      .error "strconv.Atoi: parsing \"abc\": invalid syntax" ∧
    (UpdateRecord svcAllOk rbad {}).1.metrics = [] ∧
    (UpdateRecord svcAllOk rbad {}).1.tokens = 0 ∧
    (DeleteRecord svcAllOk rbad {}).1.metrics = [] ∧
    (DeleteRecord svcAllOk rbad {}).1.tokens = 0 := by
  have h := invalid_id_no_metric_no_token svcAllOk rbad {}
    "strconv.Atoi: parsing \"abc\": invalid syntax" (by rfl)
  exact ⟨rfl, h.1, h.2.1, h.2.2.1, h.2.2.2⟩

/-- C9: the 30-second TTL floor applies only to the payload submitted to
the remote service: a record built by `NewRecord` with TTL `t` keeps `t`
unchanged (even when `t < 30`) while its submitted request is floored to
`max t 30`, and the read snapshot built by `getZoneState` from the
listed records keeps every original TTL — its record index maps each
listed record's TTL unchanged, and the record-set for a listed record's
key carries its `(value, ttl)` pair exactly as listed. -/
theorem ttl_floor_only_on_payload (fqdn rt v : String)
    (zone : DNSHostedZone) (t : Int) (svc : RemoteService) (fuel : Nat)
    (eff : Effects) (records : List DomainRecord) (dr : DomainRecord)
    (hlist : (ListRecords svc zone.domain fuel eff).2 = .ok records)
    (hdr : dr ∈ records) :
    (NewRecord fqdn rt v zone t).ttl = t ∧
    (createRecordRequest (NewRecord fqdn rt v zone t)).ttl = max t 30 ∧
    (getZoneState svc fuel zone eff).2 = .ok
      { records := records.map fun d => toRecord d zone.domain,
        sets := CalculateDNSSets
          (records.map fun d => toRecord d zone.domain) } ∧
    (records.map fun d => toRecord d zone.domain).map Record.ttl =
      records.map DomainRecord.ttl ∧
    ∃ s ∈ CalculateDNSSets (records.map fun d => toRecord d zone.domain),
      s.name = dr.name ∧ s.rtype = dr.rtype ∧
        (dr.data, dr.ttl) ∈ s.entries := by
  refine ⟨rfl, createRecordRequest_ttl _, ?_, ?_, ?_⟩
  · rcases hl : ListRecords svc zone.domain fuel eff with ⟨eff1, res⟩
    have hres : res = .ok records := by
      have : (eff1, res).2 = .ok records := hl ▸ hlist
      exact this
    subst hres
    simp [getZoneState, hl]
  · simp only [List.map_map]
    rfl
  · obtain ⟨s, hs, h1, h2, h3⟩ := calculateDNSSets_mem
      (records.map fun d => toRecord d zone.domain)
      (toRecord dr zone.domain) (List.mem_map_of_mem _ hdr)
    exact ⟨s, hs, h1, h2, h3⟩

/-- Witness for C9 at the spec's scenario: TTL 10 is kept in the
constructed record and the read snapshot, while the submitted request
carries TTL 30. -/
theorem ttl_floor_only_on_payload_witness :
    (ListRecords svcExample "example.com" 1 {}).2 = .ok [recA, recNS] ∧
    recA ∈ [recA, recNS] ∧
    (NewRecord "example.com" "A" "1.2.3.4" zoneEx 10).ttl = 10 ∧
    (createRecordRequest
      (NewRecord "example.com" "A" "1.2.3.4" zoneEx 10)).ttl = 30 ∧
    (getZoneState svcExample 1 zoneEx {}).2 = .ok
      { records := [recA, recNS].map fun d => toRecord d zoneEx.domain,
        sets := CalculateDNSSets
          ([recA, recNS].map fun d => toRecord d zoneEx.domain) } ∧
    ∃ s ∈ CalculateDNSSets
        ([recA, recNS].map fun d => toRecord d zoneEx.domain),
      s.name = recA.name ∧ s.rtype = recA.rtype ∧
        (recA.data, recA.ttl) ∈ s.entries := by
  have h := ttl_floor_only_on_payload "example.com" "A" "1.2.3.4" zoneEx
    10 svcExample 1 {} [recA, recNS] recA (by rfl) (by simp)
  exact ⟨rfl, by simp, h.1, h.2.1.trans (by decide), h.2.2.1, h.2.2.2.2⟩

end DO
